import Mathlib

set_option linter.unusedVariables false

/-!
Verification of the AgroGuard crop-health repository: a shallow embedding of
the offline inference engine (feature extraction, disease-profile matching,
severity heuristic), the analysis orchestrator, and the offline-record sync
coordinator, with theorems settling the specification claims.

Numbers are modelled with exact rationals in place of IEEE doubles; machine
counts are natural numbers. Images are modelled as the 128x128 resampled
pixel grid the source draws onto its canvas, i.e. a function from pixel
index to an (r, g, b) triple.
-/

namespace AgroGuard

/-! ## Basic data model (src/types.ts) -/

inductive StressSensitivity
  | Low
  | Standard
  | High
  | Aggressive
deriving DecidableEq, Repr

inductive CropStatus
  | Healthy
  | Stressed
  | Diseased
  | Critical
deriving DecidableEq, Repr

structure UserSettings where
  stressSensitivity : StressSensitivity
  stressThreshold : ℚ
  insuranceThreshold : ℚ
  autoSync : Bool
deriving DecidableEq, Repr

/-- DEFAULT_SETTINGS from src/db.ts. -/
def DEFAULT_SETTINGS : UserSettings :=
  { stressSensitivity := .Standard
    stressThreshold := 20
    insuranceThreshold := 25
    autoSync := true }

/-! ## Visual features and the feature extractor (extractVisualFeatures) -/

structure VisualFeatures where
  greenness : ℚ
  variance : ℚ
  necroticDensity : ℚ
  redness : ℚ
  edgeDensity : ℚ
  zonalIntegrity : ℚ
deriving DecidableEq, Repr

/-- One resampled pixel: r, g, b channel values (0-255 in practice). -/
structure Pixel where
  r : ℕ
  g : ℕ
  b : ℕ
deriving DecidableEq, Repr

/-- The fixed resample size used by the extractor (`const size = 128`). -/
def size : ℕ := 128

/-- Total pixel count of the resampled grid (`size * size`). -/
def pixelCount : ℕ := size * size

/-- `g > r * 1.1 && g > b * 1.1` from the extractor's green classification. -/
def isGreenPixel (p : Pixel) : Prop :=
  (p.r : ℚ) * 1.1 < (p.g : ℚ) ∧ (p.b : ℚ) * 1.1 < (p.g : ℚ)

instance (p : Pixel) : Decidable (isGreenPixel p) := by
  unfold isGreenPixel; infer_instance

/-- `r > g * 1.3 && r > b * 1.2` from the extractor's red classification. -/
def isRedPixel (p : Pixel) : Prop :=
  (p.g : ℚ) * 1.3 < (p.r : ℚ) ∧ (p.b : ℚ) * 1.2 < (p.r : ℚ)

instance (p : Pixel) : Decidable (isRedPixel p) := by
  unfold isRedPixel; infer_instance

/-- Luminance test `0.299*r + 0.587*g + 0.114*b < 70` (dark / necrotic). -/
def isDarkPixel (p : Pixel) : Prop :=
  (0.299 : ℚ) * p.r + (0.587 : ℚ) * p.g + (0.114 : ℚ) * p.b < 70

instance (p : Pixel) : Decidable (isDarkPixel p) := by
  unfold isDarkPixel; infer_instance

/-- Center test for pixel index i: the source computes x = idx mod size,
y = idx div size, and checks x, y strictly between size*0.25 = 32 and
size*0.75 = 96. -/
def isCenterIdx (i : ℕ) : Prop :=
  32 < i % size ∧ i % size < 96 ∧ 32 < i / size ∧ i / size < 96

instance (i : ℕ) : Decidable (isCenterIdx i) := by
  unfold isCenterIdx; infer_instance

/-- Absolute difference of naturals, modelling Math.abs on channel values. -/
def natDist (a b : ℕ) : ℕ := max a b - min a b

/-- Per-pixel contribution to the variance proxy: abs(r-g) + abs(g-b). -/
def varContrib (p : Pixel) : ℕ := natDist p.r p.g + natDist p.g p.b

/-- green++ accumulator of the extractor loop. -/
def greenCount (img : ℕ → Pixel) : ℕ :=
  ((Finset.range pixelCount).filter fun i => isGreenPixel (img i)).card

/-- centerGreen++ accumulator (green pixels inside the central square). -/
def centerGreenCount (img : ℕ → Pixel) : ℕ :=
  ((Finset.range pixelCount).filter fun i => isGreenPixel (img i) ∧ isCenterIdx i).card

/-- edgeGreen++ accumulator (green pixels in the periphery). -/
def peripheryGreenCount (img : ℕ → Pixel) : ℕ :=
  ((Finset.range pixelCount).filter fun i => isGreenPixel (img i) ∧ ¬ isCenterIdx i).card

/-- dark++ accumulator. -/
def darkCount (img : ℕ → Pixel) : ℕ :=
  ((Finset.range pixelCount).filter fun i => isDarkPixel (img i)).card

/-- red++ accumulator. -/
def redCount (img : ℕ → Pixel) : ℕ :=
  ((Finset.range pixelCount).filter fun i => isRedPixel (img i)).card

/-- totalVar accumulator. -/
def totalVarSum (img : ℕ → Pixel) : ℕ :=
  ∑ i ∈ Finset.range pixelCount, varContrib (img i)

/-- edges++ accumulator: the second loop steps by 8 bytes (2 pixels) while
i < pixels.length - 8, comparing the red channels of pixel 2k and pixel
2k+1 against a jump of 40; k ranges over 0..8190. -/
def edgesCount (img : ℕ → Pixel) : ℕ :=
  ((Finset.range 8191).filter fun k => 40 < natDist (img (2 * k)).r (img (2 * k + 1)).r).card

/-- The aggregation block of extractVisualFeatures (the final resolve call).
Note: zonalIntegrity is the raw ratio centerGreen / edgeGreen when the
periphery has any green pixel, else 1; it is not clamped. -/
def extractVisualFeatures (img : ℕ → Pixel) : VisualFeatures :=
  { greenness := (greenCount img : ℚ) / (pixelCount : ℚ)
    variance := min 1 ((totalVarSum img : ℚ) / ((pixelCount : ℚ) * 200))
    necroticDensity := (darkCount img : ℚ) / (pixelCount : ℚ)
    redness := (redCount img : ℚ) / (pixelCount : ℚ)
    edgeDensity := min 1 ((edgesCount img : ℚ) / ((pixelCount : ℚ) * 0.4))
    zonalIntegrity :=
      if 0 < peripheryGreenCount img then
        (centerGreenCount img : ℚ) / (peripheryGreenCount img : ℚ)
      else 1 }

/-! ## Disease profiles (DISEASE_PROFILES knowledge base) -/

inductive FeatKey
  | greenness
  | variance
  | necroticDensity
  | redness
  | edgeDensity
  | zonalIntegrity
deriving DecidableEq, Repr

def VisualFeatures.get (v : VisualFeatures) : FeatKey → ℚ
  | .greenness => v.greenness
  | .variance => v.variance
  | .necroticDensity => v.necroticDensity
  | .redness => v.redness
  | .edgeDensity => v.edgeDensity
  | .zonalIntegrity => v.zonalIntegrity

structure DiseaseProfile where
  name : String
  weights : List (FeatKey × ℚ)
  description : String
  recommendations : List String
  baseLossModifier : ℚ
deriving DecidableEq, Repr

/-- The fixed knowledge base, in source declaration order; each profile's
weight list keeps the source object's key insertion order. -/
def DISEASE_PROFILES : List DiseaseProfile :=
  [ { name := "Leaf Rust (Puccinia spp.)"
      weights := [(.redness, 0.8), (.edgeDensity, 0.6), (.variance, 0.4)]
      description := "Detected characteristic reddish-orange fungal pustules causing high localized spectral variance."
      recommendations := ["Apply triazole fungicide", "Reduce overhead irrigation", "Monitor spread to adjacent rows"]
      baseLossModifier := 1.2 }
  , { name := "Late Blight (Phytophthora infestans)"
      weights := [(.necroticDensity, 0.9), (.greenness, -0.8), (.variance, 0.7)]
      description := "Widespread necrotic lesions with high variance. Typical of aggressive oomycete infection."
      recommendations := ["Immediate copper-based spray", "Remove heavily infected plant matter", "Check for stem cankers"]
      baseLossModifier := 2.0 }
  , { name := "Powdery Mildew"
      weights := [(.variance, 0.8), (.edgeDensity, 0.5), (.greenness, -0.2)]
      description := "Surface-level white mycelial growth creating high textural complexity and edge counts."
      recommendations := ["Increase airflow in canopy", "Apply sulfur-based powders", "Check relative humidity levels"]
      baseLossModifier := 0.8 }
  , { name := "Nitrogen/Iron Chlorosis"
      weights := [(.greenness, -0.9), (.zonalIntegrity, -0.7), (.necroticDensity, -0.5)]
      description := "Broad-spectrum chlorophyll loss starting from leaf margins. Pattern suggests physiological deficiency."
      recommendations := ["Check soil pH (likely >7.0)", "Apply chelated iron/nitrogen", "Review drainage efficiency"]
      baseLossModifier := 0.6 }
  , { name := "Bacterial Leaf Spot"
      weights := [(.edgeDensity, 0.9), (.necroticDensity, 0.5), (.variance, 0.5)]
      description := "Small, angular necrotic spots with sharp boundaries (high edge density)."
      recommendations := ["Avoid handling wet foliage", "Apply fixed copper bactericide", "Sanitize equipment between sectors"]
      baseLossModifier := 1.1 }
  ]

/-! ## Local inference (runLocalInference) -/

/-- The per-profile score loop: positive weight contributes featVal * weight,
negative weight contributes (1 - featVal) * abs(weight); the sum is divided
by the sum of absolute weights. -/
def profileScore (visual : VisualFeatures) (profile : DiseaseProfile) : ℚ :=
  (profile.weights.foldl
      (fun acc kw =>
        acc + (if 0 < kw.2 then visual.get kw.1 * kw.2 else (1 - visual.get kw.1) * |kw.2|))
      0)
    / (profile.weights.foldl (fun acc kw => acc + |kw.2|) 0)

/-- The best-profile selection loop: maxScore starts at -1, bestProfile at
null, and a profile replaces the current best only on a strictly larger
score (first profile wins ties). -/
def selectBest (visual : VisualFeatures) : ℚ × Option DiseaseProfile :=
  DISEASE_PROFILES.foldl
    (fun acc profile =>
      if acc.1 < profileScore visual profile then (profileScore visual profile, some profile)
      else acc)
    (-1, none)

/-- sMod: Aggressive 1.4, High 1.2, otherwise 1.0. -/
def sensitivityMod : StressSensitivity → ℚ
  | .Aggressive => 1.4
  | .High => 1.2
  | _ => 1

/-- The fixed no-image default feature vector. -/
def defaultFeatures : VisualFeatures :=
  { greenness := 0.8
    variance := 0.1
    necroticDensity := 0.05
    redness := 0.02
    edgeDensity := 0.1
    zonalIntegrity := 0.9 }

/-- stressHeuristic = ((1-greenness)*0.4 + necroticDensity*0.4 +
(1-zonalIntegrity)*0.2) * sMod. -/
def stressHeuristicOf (visual : VisualFeatures) (sensitivity : StressSensitivity) : ℚ :=
  ((1 - visual.greenness) * 0.4 + visual.necroticDensity * 0.4
      + (1 - visual.zonalIntegrity) * 0.2)
    * sensitivityMod sensitivity

/-- JavaScript Math.round: floor(x + 1/2). Rat.floor is used directly so
that evaluation stays kernel-reducible. -/
def jsRound (q : ℚ) : ℤ := Rat.floor (q + 1 / 2)

/-- matchedDisease = maxScore > 0.45 && bestProfile ? bestProfile : null. -/
def matchedDiseaseOf (visual : VisualFeatures) : Option DiseaseProfile :=
  if 0.45 < (selectBest visual).1 then (selectBest visual).2 else none

/-- The loss multiplier applied to the stress heuristic: the confirmed
profile's baseLossModifier, or 1 when no profile is confirmed. -/
def appliedLossModifier (visual : VisualFeatures) : ℚ :=
  match matchedDiseaseOf visual with
  | some d => d.baseLossModifier
  | none => 1

structure DetailedMetrics where
  leafCoverage : ℚ
  spreadVelocity : String
  climateRiskFactor : ℚ
deriving DecidableEq, Repr

structure YieldAnalysis where
  expectedLoss : ℚ
  confidenceScore : ℚ
  riskLevel : String
  recommendations : List String
  diseaseDetected : String
  diseaseDescription : String
  similarityScore : ℚ
  symptomlessStressDetected : Bool
  stressProbability : ℚ
  treatmentUrgency : String
  detailedMetrics : DetailedMetrics
deriving DecidableEq, Repr

/-- runLocalInference: the image argument is modelled as the extracted
feature vector (none = no image, which selects the default vector). The
cropType argument is kept for interface fidelity; the source never reads
it in the local path. -/
def runLocalInference (imageFeatures : Option VisualFeatures) (cropType : String)
    (sensitivity : StressSensitivity) : YieldAnalysis :=
  let visual := imageFeatures.getD defaultFeatures
  let maxScore := (selectBest visual).1
  let bestProfile := (selectBest visual).2
  let sh := stressHeuristicOf visual sensitivity
  let isSymptomless :=
    decide ((0.25 : ℚ) < sh) && decide (visual.necroticDensity < 0.1)
      && decide (visual.edgeDensity < 0.2)
  let matched := matchedDiseaseOf visual
  { expectedLoss := (jsRound (sh * 35 * appliedLossModifier visual) : ℚ)
    confidenceScore := min 0.92 (0.5 + maxScore * 0.4)
    riskLevel := if 0.5 < sh then "High" else if 0.2 < sh then "Medium" else "Low"
    recommendations :=
      match matched with
      | some d => d.recommendations
      | none =>
        if isSymptomless then
          ["Apply micronutrient foliar spray", "Verify soil moisture", "Conduct sap test"]
        else ["Isolate sector", "Apply organic fungicide", "Monitor spread"]
    diseaseDetected :=
      match matched with
      | some d => d.name
      | none => if isSymptomless then "Physiological Stress" else "Unknown Pathogen"
    diseaseDescription :=
      match matched with
      | some _ =>
        "Local Diagnostic Engine Match: " ++ ((bestProfile.map DiseaseProfile.description).getD "")
          ++ " (Match Confidence: " ++ toString (jsRound (maxScore * 100)) ++ "%)"
      | none =>
        "Heuristic Analysis: Zonal integrity at "
          ++ toString (jsRound (visual.zonalIntegrity * 100)) ++ "%. "
          ++ (if isSymptomless then "Detected spectral shifts indicating latent stress."
              else "Detected atypical morphological lesions.")
    similarityScore := maxScore
    symptomlessStressDetected := isSymptomless
    stressProbability := (jsRound (sh * 100) : ℚ)
    treatmentUrgency :=
      if 0.4 < sh then "Immediate" else if 0.15 < sh then "Within 48h" else "Monitoring"
    detailedMetrics :=
      { leafCoverage := (jsRound (visual.necroticDensity * 160) : ℚ)
        spreadVelocity :=
          if 0.35 < visual.edgeDensity then "Aggressive"
          else if 0.15 < visual.edgeDensity then "Moderate" else "Slow"
        climateRiskFactor := 0.5 } }

/-! ## Analysis orchestrator (analyzeCropHealth) -/

/-- The result of JSON.parse on a remote response body: every Analysis field
may be absent, since the source parses without validating the schema. -/
structure ParsedAnalysis where
  expectedLoss : Option ℚ
  confidenceScore : Option ℚ
  riskLevel : Option String
  recommendations : Option (List String)
  diseaseDetected : Option String
  diseaseDescription : Option String
  similarityScore : Option ℚ
  symptomlessStressDetected : Option Bool
  stressProbability : Option ℚ
  treatmentUrgency : Option String
  detailedMetrics : Option DetailedMetrics
deriving DecidableEq, Repr

/-- A fully-populated analysis viewed as a parsed JSON object. -/
def toParsed (a : YieldAnalysis) : ParsedAnalysis :=
  { expectedLoss := some a.expectedLoss
    confidenceScore := some a.confidenceScore
    riskLevel := some a.riskLevel
    recommendations := some a.recommendations
    diseaseDetected := some a.diseaseDetected
    diseaseDescription := some a.diseaseDescription
    similarityScore := some a.similarityScore
    symptomlessStressDetected := some a.symptomlessStressDetected
    stressProbability := some a.stressProbability
    treatmentUrgency := some a.treatmentUrgency
    detailedMetrics := some a.detailedMetrics }

/-- The empty JSON object: what JSON.parse yields when the remote response
text is empty or falsy, via the expression response.text or-else the
literal two-brace string. -/
def emptyParsed : ParsedAnalysis :=
  { expectedLoss := none
    confidenceScore := none
    riskLevel := none
    recommendations := none
    diseaseDetected := none
    diseaseDescription := none
    similarityScore := none
    symptomlessStressDetected := none
    stressProbability := none
    treatmentUrgency := none
    detailedMetrics := none }

/-- Outcome of the remote generateContent call combined with JSON.parse:
either the await or the parse throws, or the parse yields an object (which
the source returns without any schema validation). -/
inductive CloudOutcome
  | throws
  | parses (value : ParsedAnalysis)

/-- analyzeCropHealth: offline or missing API key short-circuits to local
inference; otherwise the remote outcome is returned as parsed when the call
and parse succeed, and any thrown error falls back to local inference. -/
def analyzeCropHealth (online apiKeyConfigured : Bool) (outcome : CloudOutcome)
    (imageFeatures : Option VisualFeatures) (cropType : String)
    (sensitivity : StressSensitivity) : ParsedAnalysis :=
  if online = false ∨ apiKeyConfigured = false then
    toParsed (runLocalInference imageFeatures cropType sensitivity)
  else
    match outcome with
    | .throws => toParsed (runLocalInference imageFeatures cropType sensitivity)
    | .parses value => value

/-! ## Records, record store and the sync coordinator (syncOfflineRecords) -/

structure CropRecord where
  id : String
  timestamp : ℤ
  cropType : String
  imageFeatures : Option VisualFeatures
  status : CropStatus
  analysis : ParsedAnalysis
  feedback : Option String
  isPendingSync : Option Bool
  syncAttempts : Option ℕ
  lastSyncError : Option String
deriving DecidableEq, Repr

def MAX_SYNC_ATTEMPTS : ℕ := 3

/-- dbService.updateRecord: maps over the store, merging the patch into
every record whose id matches. -/
def updateRecord (records : List CropRecord) (id : String)
    (patch : CropRecord → CropRecord) : List CropRecord :=
  records.map fun r => if r.id = id then patch r else r

/-- JavaScript comparison value > threshold where the value may be an absent
field (undefined compares false). -/
def jsGT : Option ℚ → ℚ → Bool
  | none, _ => false
  | some x, t => decide (t < x)

/-- The status recomputation in the sync loop's success path: loss above the
insurance threshold is Critical; otherwise loss > 5 or symptomless stress
yields Diseased (loss > 15) or Stressed; otherwise Healthy. -/
def computeSyncStatus (cloudResult : ParsedAnalysis) (insuranceThreshold : ℚ) : CropStatus :=
  if jsGT cloudResult.expectedLoss insuranceThreshold then .Critical
  else if jsGT cloudResult.expectedLoss 5 || cloudResult.symptomlessStressDetected.getD false then
    (if jsGT cloudResult.expectedLoss 15 then .Diseased else .Stressed)
  else .Healthy

/-- Environment of one sync pass: the connectivity signal, whether an API
key is configured, and the remote-call outcome for the i-th pending record
processed. -/
structure SyncEnv where
  online : Bool
  apiKeyConfigured : Bool
  remote : ℕ → CloudOutcome

/-- The body of the per-record loop. A record at or past the retry cap is
skipped. Otherwise the orchestrator is invoked (it never throws: remote
failures fall back to local inference internally), and the store is updated
by id with the new analysis, the recomputed status, a cleared pending flag
and an incremented attempt counter. The second component of the state
records the ids passed to the orchestrator. -/
def syncStep (env : SyncEnv) (settings : UserSettings) (i : ℕ)
    (st : List CropRecord × List String) (record : CropRecord) :
    List CropRecord × List String :=
  if MAX_SYNC_ATTEMPTS ≤ record.syncAttempts.getD 0 then st
  else
    let cloudResult := analyzeCropHealth env.online env.apiKeyConfigured (env.remote i)
      record.imageFeatures record.cropType settings.stressSensitivity
    let status := computeSyncStatus cloudResult settings.insuranceThreshold
    (updateRecord st.1 record.id fun r =>
        { r with
          analysis := cloudResult
          status := status
          isPendingSync := some false
          syncAttempts := some (record.syncAttempts.getD 0 + 1) },
      st.2 ++ [record.id])

/-- syncOfflineRecords: a no-op while a pass is active, offline, or without
an API key (records and the active flag untouched); otherwise one pass over
the snapshot of pending records, returning the updated store, the cleared
in-progress flag, and the ids passed to the orchestrator. -/
def syncOfflineRecords (env : SyncEnv) (isSyncActive : Bool)
    (records : List CropRecord) (settings : UserSettings) :
    List CropRecord × Bool × List String :=
  if isSyncActive = true ∨ env.online = false ∨ env.apiKeyConfigured = false then
    (records, isSyncActive, [])
  else
    let pending := records.filter fun r => r.isPendingSync.getD false
    if pending.length = 0 then (records, false, [])
    else
      let result := pending.enum.foldl (fun st p => syncStep env settings p.1 st p.2) (records, [])
      (result.1, false, result.2)

/-! ## Status rules written from the specification's words, for comparison
with the code's computeSyncStatus -/

/-- The three-tier rule exactly as the claim C2 states it: Critical when
loss exceeds the insurance threshold; otherwise Diseased/Stressed when
loss > 15 or symptomless stress (split at loss > 15); else Healthy. -/
def specSyncStatusClaimed (loss : ℚ) (sympt : Bool) (insuranceThreshold : ℚ) : CropStatus :=
  if insuranceThreshold < loss then .Critical
  else if 15 < loss ∨ sympt = true then (if 15 < loss then .Diseased else .Stressed)
  else .Healthy

/-- The amended three-tier rule: identical to the claimed rule except that
the middle tier is entered when loss > 5 or symptomless stress. -/
def specSyncStatusAmended (loss : ℚ) (sympt : Bool) (insuranceThreshold : ℚ) : CropStatus :=
  if insuranceThreshold < loss then .Critical
  else if 5 < loss ∨ sympt = true then (if 15 < loss then .Diseased else .Stressed)
  else .Healthy

/-! ## Concrete inputs used by scenario theorems, witnesses and
counterexamples -/

/-- The feature vector of the Late Blight scenario (claim C6). -/
def v6 : VisualFeatures :=
  { greenness := 0.1
    variance := 0.6
    necroticDensity := 0.7
    redness := 0.05
    edgeDensity := 0.1
    zonalIntegrity := 0.3 }

/-- First vector of the monotonicity counterexample: Leaf Rust (modifier
1.2) wins the profile match. -/
def vA : VisualFeatures :=
  { greenness := 0.5
    variance := 0.1
    necroticDensity := 0.4
    redness := 0.5
    edgeDensity := 0.8
    zonalIntegrity := 0.9 }

/-- Second vector: necroticDensity raised from 0.40 to 0.41, all other
components equal; Bacterial Leaf Spot (modifier 1.1) overtakes Leaf Rust. -/
def vB : VisualFeatures := { vA with necroticDensity := 0.41 }

/-! ## Claim theorems -/

unseal Rat.mul Rat.add Rat.inv Rat.sub Rat.ofScientific in
/-- C6: on the scenario vector with Standard sensitivity, local inference
selects Late Blight with a confirmed normalized score strictly above 0.45
beating every other profile, and yields expectedLoss 55, riskLevel High,
treatmentUrgency Immediate. -/
theorem c6_late_blight_scenario :
    (runLocalInference (some v6) "Tomato" .Standard).diseaseDetected
        = "Late Blight (Phytophthora infestans)" ∧
      (0.45 : ℚ) < (runLocalInference (some v6) "Tomato" .Standard).similarityScore ∧
      (DISEASE_PROFILES.all fun p =>
          p.name == "Late Blight (Phytophthora infestans)"
            || decide (profileScore v6 p < (selectBest v6).1)) = true ∧
      (runLocalInference (some v6) "Tomato" .Standard).expectedLoss = 55 ∧
      (runLocalInference (some v6) "Tomato" .Standard).riskLevel = "High" ∧
      (runLocalInference (some v6) "Tomato" .Standard).treatmentUrgency = "Immediate" := by
  decide

unseal Rat.mul Rat.add Rat.inv Rat.sub Rat.ofScientific in
/-- C7: with no image (the default vector) under Standard sensitivity, no
profile reaches the 0.45 acceptance threshold, riskLevel is Low and
symptomless stress is not detected. -/
theorem c7_default_vector_healthy_baseline :
    (DISEASE_PROFILES.all fun p => decide (profileScore defaultFeatures p < 0.45)) = true ∧
      matchedDiseaseOf defaultFeatures = none ∧
      (runLocalInference none "Corn" .Standard).riskLevel = "Low" ∧
      (runLocalInference none "Corn" .Standard).symptomlessStressDetected = false := by
  decide

/-- C9: invoking the sync coordinator while a pass is active, while
offline, or without a configured API key returns with the record store,
and the in-progress flag exactly as they were, and no record is passed to
the orchestrator. -/
theorem c9_sync_guard_noop (env : SyncEnv) (isSyncActive : Bool)
    (records : List CropRecord) (settings : UserSettings)
    (h : isSyncActive = true ∨ env.online = false ∨ env.apiKeyConfigured = false) :
    syncOfflineRecords env isSyncActive records settings = (records, isSyncActive, []) := by
  unfold syncOfflineRecords
  rw [if_pos h]

/-- Witness for C9 at a concrete store with a pass already in progress. -/
theorem c9_sync_guard_noop_witness :
    ((true = true ∨ ({ online := true, apiKeyConfigured := true, remote := fun _ => .throws } : SyncEnv).online = false ∨ ({ online := true, apiKeyConfigured := true, remote := fun _ => .throws } : SyncEnv).apiKeyConfigured = false) ∧
      syncOfflineRecords { online := true, apiKeyConfigured := true, remote := fun _ => .throws } true [] DEFAULT_SETTINGS = ([], true, [])) :=
  ⟨Or.inl rfl,
    c9_sync_guard_noop { online := true, apiKeyConfigured := true, remote := fun _ => .throws }
      true [] DEFAULT_SETTINGS (Or.inl rfl)⟩

/-- A pending record with zero attempts used by sync scenarios. -/
def recPending0 : CropRecord :=
  { id := "rec-new"
    timestamp := 0
    cropType := "Tomato"
    imageFeatures := none
    status := .Healthy
    analysis := emptyParsed
    feedback := none
    isPendingSync := some true
    syncAttempts := some 0
    lastSyncError := none }

/-- A pending record already at the retry cap. -/
def recCapped : CropRecord :=
  { id := "rec-cap"
    timestamp := 0
    cropType := "Wheat"
    imageFeatures := none
    status := .Stressed
    analysis := emptyParsed
    feedback := none
    isPendingSync := some true
    syncAttempts := some 3
    lastSyncError := none }

/-- Environment in which the remote cloud call throws for every record. -/
def envAllFail : SyncEnv :=
  { online := true, apiKeyConfigured := true, remote := fun _ => .throws }

/-- A parsed remote response whose expectedLoss is 10 without symptomless
stress, used by the C2 counterexample. -/
def parsedLoss10 : ParsedAnalysis :=
  { emptyParsed with expectedLoss := some 10, symptomlessStressDetected := some false }

/-- Environment in which the remote call parses to parsedLoss10. -/
def envLoss10 : SyncEnv :=
  { online := true, apiKeyConfigured := true, remote := fun _ => .parses parsedLoss10 }

unseal Rat.mul Rat.add Rat.inv Rat.sub Rat.ofScientific in
/-- C2 counterexample: a successful re-analysis with expectedLoss 10 and no
symptomless stress (insurance threshold 25) is stored as Stressed by the
code, while the rule claimed in C2 (middle tier entered only at loss > 15)
would say Healthy. -/
theorem c2_status_rule_counterexample :
    ((syncOfflineRecords envLoss10 false [recPending0] DEFAULT_SETTINGS).1.map
        CropRecord.status = [CropStatus.Stressed]) ∧
      specSyncStatusClaimed 10 false 25 = CropStatus.Healthy ∧
      CropStatus.Stressed ≠ CropStatus.Healthy := by
  decide

/-- C2 amended: the status recomputed by the sync loop's success path
agrees with the three-tier rule whose middle tier is entered when
expectedLoss > 5 or symptomless stress is detected (Diseased/Stressed still
split at loss > 15, Critical still at loss > insuranceThreshold). -/
theorem c2_status_rule_amended (a : ParsedAnalysis) (loss : ℚ) (sympt : Bool)
    (insuranceThreshold : ℚ) :
    computeSyncStatus
        { a with expectedLoss := some loss, symptomlessStressDetected := some sympt }
        insuranceThreshold
      = specSyncStatusAmended loss sympt insuranceThreshold := by
  unfold computeSyncStatus specSyncStatusAmended jsGT
  simp only [Bool.or_eq_true, decide_eq_true_eq, Option.getD_some]

/-- C4: with connectivity and a key, a remote response that parses to the
empty JSON object (every required Analysis field missing) is returned as
the analysis verbatim; it is not the local heuristic composite, whose
expectedLoss field is always populated. -/
theorem c4_schema_violation_accepted :
    analyzeCropHealth true true (.parses emptyParsed) none "Tomato" .Standard = emptyParsed ∧
      emptyParsed.expectedLoss = none ∧
      analyzeCropHealth true true (.parses emptyParsed) none "Tomato" .Standard
        ≠ toParsed (runLocalInference none "Tomato" .Standard) := by
  refine ⟨rfl, rfl, fun h => ?_⟩
  have h2 := congrArg ParsedAnalysis.expectedLoss h
  simp [emptyParsed, toParsed, analyzeCropHealth] at h2

unseal Rat.mul Rat.add Rat.inv Rat.sub Rat.ofScientific in
/-- C1: one sync pass over a capped pending record and a fresh pending
record, with the remote cloud call failing for every record. The capped
record is untouched, and the fresh record's counter does become 1 — but
the code clears its pending flag and replaces its analysis with the local
fallback, because analyzeCropHealth swallows the remote failure; the
claimed outcome (pending still true, analysis untouched) does not occur. -/
theorem c1_failed_pass_divergence :
    ((syncOfflineRecords envAllFail false [recCapped, recPending0] DEFAULT_SETTINGS).1[0]?
        = some recCapped) ∧
      ((syncOfflineRecords envAllFail false [recCapped, recPending0] DEFAULT_SETTINGS).1[1]?.map
          (fun r => (r.syncAttempts, r.isPendingSync))
        = some (some 1, some false)) ∧
      ((syncOfflineRecords envAllFail false [recCapped, recPending0] DEFAULT_SETTINGS).1[1]?.map
          CropRecord.analysis
        = some (toParsed (runLocalInference none "Tomato" .Standard))) ∧
      toParsed (runLocalInference none "Tomato" .Standard) ≠ recPending0.analysis := by
  decide

/-! ## Helper lemmas for the monotonicity analysis (C5) -/

lemma ratFloor_mono {a b : ℚ} (h : a ≤ b) : Rat.floor a ≤ Rat.floor b :=
  Rat.le_floor.2 (le_trans (Rat.le_floor.1 le_rfl) h)

lemma jsRound_mono {a b : ℚ} (h : a ≤ b) : jsRound a ≤ jsRound b :=
  ratFloor_mono (add_le_add_right h _)

/-- Any profile selected by the score fold comes from the accumulator or
the list folded over. -/
lemma foldl_pick_mem (visual : VisualFeatures) (l : List DiseaseProfile) :
    ∀ (acc : ℚ × Option DiseaseProfile) (d : DiseaseProfile),
      (l.foldl
          (fun acc profile =>
            if acc.1 < profileScore visual profile then (profileScore visual profile, some profile)
            else acc)
          acc).2 = some d →
      acc.2 = some d ∨ d ∈ l := by
  induction l with
  | nil => intro acc d h; exact Or.inl h
  | cons p t ih =>
    intro acc d h
    rw [List.foldl_cons] at h
    rcases ih _ d h with h2 | h2
    · by_cases hc : acc.1 < profileScore visual p
      · rw [if_pos hc] at h2
        exact Or.inr (by simp_all)
      · rw [if_neg hc] at h2
        exact Or.inl h2
    · exact Or.inr (List.mem_cons_of_mem p h2)

lemma selectBest_mem (visual : VisualFeatures) (d : DiseaseProfile)
    (h : (selectBest visual).2 = some d) : d ∈ DISEASE_PROFILES := by
  rcases foldl_pick_mem visual DISEASE_PROFILES (-1, none) d h with h2 | h2
  · exact absurd h2 (by simp)
  · exact h2

unseal Rat.mul Rat.add Rat.inv Rat.sub Rat.ofScientific in
lemma profiles_modifier_pos : ∀ d ∈ DISEASE_PROFILES, 0 < d.baseLossModifier := by
  decide

lemma appliedLossModifier_pos (visual : VisualFeatures) :
    0 < appliedLossModifier visual := by
  unfold appliedLossModifier
  rcases h : matchedDiseaseOf visual with _ | d
  · norm_num
  · have hd : (selectBest visual).2 = some d := by
      unfold matchedDiseaseOf at h
      split at h
      · exact h
      · cases h
    exact profiles_modifier_pos d (selectBest_mem visual d hd)

lemma sensitivityMod_pos (s : StressSensitivity) : 0 < sensitivityMod s := by
  cases s <;> norm_num [sensitivityMod]

lemma runLocalInference_expectedLoss (w : VisualFeatures) (c : String)
    (s : StressSensitivity) :
    (runLocalInference (some w) c s).expectedLoss
      = (jsRound (stressHeuristicOf w s * 35 * appliedLossModifier w) : ℚ) := rfl

/-- C5 amended: holding every other feature, the crop type and the
sensitivity fixed, raising necroticDensity never lowers expectedLoss as
long as the applied loss modifier (the confirmed profile's, or 1 when none
is confirmed) is the same for both inputs; when the raise changes the
winning profile, expectedLoss can strictly drop (see the counterexample). -/
theorem c5_necrotic_monotone_amended (v : VisualFeatures) (d d' : ℚ)
    (cropType : String) (sensitivity : StressSensitivity)
    (hle : d ≤ d')
    (hmod : appliedLossModifier { v with necroticDensity := d }
      = appliedLossModifier { v with necroticDensity := d' }) :
    (runLocalInference (some { v with necroticDensity := d }) cropType sensitivity).expectedLoss
      ≤ (runLocalInference (some { v with necroticDensity := d' }) cropType sensitivity).expectedLoss := by
  rw [runLocalInference_expectedLoss, runLocalInference_expectedLoss, hmod]
  have hsh : stressHeuristicOf { v with necroticDensity := d } sensitivity
      ≤ stressHeuristicOf { v with necroticDensity := d' } sensitivity := by
    show ((1 - v.greenness) * 0.4 + d * 0.4 + (1 - v.zonalIntegrity) * 0.2)
          * sensitivityMod sensitivity
        ≤ ((1 - v.greenness) * 0.4 + d' * 0.4 + (1 - v.zonalIntegrity) * 0.2)
          * sensitivityMod sensitivity
    have hpos := sensitivityMod_pos sensitivity
    nlinarith
  have hmul : stressHeuristicOf { v with necroticDensity := d } sensitivity * 35
        * appliedLossModifier { v with necroticDensity := d' }
      ≤ stressHeuristicOf { v with necroticDensity := d' } sensitivity * 35
        * appliedLossModifier { v with necroticDensity := d' } := by
    have hpos := appliedLossModifier_pos { v with necroticDensity := d' }
    nlinarith
  exact_mod_cast jsRound_mono hmul

unseal Rat.mul Rat.add Rat.inv Rat.sub Rat.ofScientific in
/-- Witness for C5 amended at the default vector with necroticDensity
raised from 0.05 to 0.06 (no profile confirmed in either case). -/
theorem c5_necrotic_monotone_amended_witness :
    ((0.05 : ℚ) ≤ 0.06) ∧
      appliedLossModifier { defaultFeatures with necroticDensity := 0.05 }
        = appliedLossModifier { defaultFeatures with necroticDensity := 0.06 } ∧
      (runLocalInference (some { defaultFeatures with necroticDensity := 0.05 }) "Corn" .Standard).expectedLoss
        ≤ (runLocalInference (some { defaultFeatures with necroticDensity := 0.06 }) "Corn" .Standard).expectedLoss :=
  ⟨by norm_num, by decide,
    c5_necrotic_monotone_amended defaultFeatures 0.05 0.06 "Corn" .Standard (by norm_num)
      (by decide)⟩

unseal Rat.mul Rat.add Rat.inv Rat.sub Rat.ofScientific in
/-- C5 counterexample: the two vectors differ only in necroticDensity
(0.40 against 0.41), yet the larger necroticDensity yields the strictly
smaller expectedLoss (15 against 16), because the winning profile switches
from Leaf Rust (modifier 1.2) to Bacterial Leaf Spot (modifier 1.1). -/
theorem c5_necrotic_monotone_counterexample :
    vA.necroticDensity < vB.necroticDensity ∧
      vA.greenness = vB.greenness ∧ vA.variance = vB.variance ∧
      vA.redness = vB.redness ∧ vA.edgeDensity = vB.edgeDensity ∧
      vA.zonalIntegrity = vB.zonalIntegrity ∧
      (runLocalInference (some vA) "Tomato" .Standard).expectedLoss = 16 ∧
      (runLocalInference (some vB) "Tomato" .Standard).expectedLoss = 15 ∧
      (runLocalInference (some vB) "Tomato" .Standard).expectedLoss
        < (runLocalInference (some vA) "Tomato" .Standard).expectedLoss := by
  decide

/-! ## Frame lemmas for the sync pass (C8, C10) -/

lemma updateRecord_getElem?_of_ne (records : List CropRecord) (id : String)
    (patch : CropRecord → CropRecord) (i : ℕ) (r : CropRecord)
    (hr : records[i]? = some r) (hne : r.id ≠ id) :
    (updateRecord records id patch)[i]? = some r := by
  unfold updateRecord
  rw [List.getElem?_map, hr]
  simp [hne]

lemma snd_mem_of_mem_enum {α : Type} {l : List α} {p : ℕ × α} (h : p ∈ l.enum) :
    p.2 ∈ l := by
  have he : l.enum.map Prod.snd = l := List.enum_map_snd l
  rw [← he]
  exact List.mem_map_of_mem Prod.snd h

/-- A record whose id is never targeted by an uncapped step of the fold is
left in place, and its id is never appended to the orchestrator-call
trace. -/
lemma syncFoldFrame (env : SyncEnv) (settings : UserSettings)
    (l : List (ℕ × CropRecord)) :
    ∀ (st : List CropRecord × List String) (i : ℕ) (r : CropRecord),
      st.1[i]? = some r → r.id ∉ st.2 →
      (∀ p ∈ l, p.2.syncAttempts.getD 0 < MAX_SYNC_ATTEMPTS → p.2.id ≠ r.id) →
      ((l.foldl (fun st p => syncStep env settings p.1 st p.2) st).1[i]? = some r ∧
        r.id ∉ (l.foldl (fun st p => syncStep env settings p.1 st p.2) st).2) := by
  induction l with
  | nil => intro st i r h1 h2 h3; exact ⟨h1, h2⟩
  | cons p t ih =>
    intro st i r h1 h2 h3
    rw [List.foldl_cons]
    by_cases hc : MAX_SYNC_ATTEMPTS ≤ p.2.syncAttempts.getD 0
    · have hstep : syncStep env settings p.1 st p.2 = st := by
        unfold syncStep
        rw [if_pos hc]
      rw [hstep]
      exact ih st i r h1 h2 fun q hq => h3 q (List.mem_cons_of_mem p hq)
    · have hne : p.2.id ≠ r.id :=
        h3 p (List.mem_cons_self p t) (lt_of_not_le hc)
      have hstep : syncStep env settings p.1 st p.2
          = (updateRecord st.1 p.2.id fun r0 =>
              { r0 with
                analysis := analyzeCropHealth env.online env.apiKeyConfigured (env.remote p.1)
                  p.2.imageFeatures p.2.cropType settings.stressSensitivity
                status := computeSyncStatus
                  (analyzeCropHealth env.online env.apiKeyConfigured (env.remote p.1)
                    p.2.imageFeatures p.2.cropType settings.stressSensitivity)
                  settings.insuranceThreshold
                isPendingSync := some false
                syncAttempts := some (p.2.syncAttempts.getD 0 + 1) },
            st.2 ++ [p.2.id]) := by
        unfold syncStep
        rw [if_neg hc]
      rw [hstep]
      refine ih _ i r ?_ ?_ fun q hq => h3 q (List.mem_cons_of_mem p hq)
      · exact updateRecord_getElem?_of_ne st.1 p.2.id _ i r h1 (Ne.symm hne)
      · intro hmem
        rcases List.mem_append.1 hmem with hmem | hmem
        · exact h2 hmem
        · exact hne (List.mem_singleton.1 hmem).symm

/-- Records never targeted by an uncapped pending record's id survive a
whole syncOfflineRecords call unchanged and are never sent to the
orchestrator. -/
lemma syncOfflineRecords_frame (env : SyncEnv) (isSyncActive : Bool)
    (records : List CropRecord) (settings : UserSettings) (i : ℕ) (r : CropRecord)
    (hr : records[i]? = some r)
    (hids : ∀ q ∈ records.filter (fun x => x.isPendingSync.getD false),
      q.syncAttempts.getD 0 < MAX_SYNC_ATTEMPTS → q.id ≠ r.id) :
    (syncOfflineRecords env isSyncActive records settings).1[i]? = some r ∧
      r.id ∉ (syncOfflineRecords env isSyncActive records settings).2.2 := by
  unfold syncOfflineRecords
  by_cases hguard : isSyncActive = true ∨ env.online = false ∨ env.apiKeyConfigured = false
  · rw [if_pos hguard]
    exact ⟨hr, by simp⟩
  · rw [if_neg hguard]
    simp only
    by_cases hlen : (records.filter fun r => r.isPendingSync.getD false).length = 0
    · rw [if_pos hlen]
      exact ⟨hr, by simp⟩
    · rw [if_neg hlen]
      have := syncFoldFrame env settings
        ((records.filter fun r => r.isPendingSync.getD false).enum)
        (records, []) i r hr (by simp) ?_
      · exact this
      · intro p hp hlt
        exact hids p.2 (snd_mem_of_mem_enum hp) hlt

/-- C8: in any sync pass, any record whose attempt counter has reached the
cap of 3 stays exactly as it was and its id is never passed to the
orchestrator, whatever the connectivity flags — given the documented store
invariant that record ids are unique. -/
theorem c8_capped_record_untouched (env : SyncEnv) (isSyncActive : Bool)
    (records : List CropRecord) (settings : UserSettings) (i : ℕ) (r : CropRecord)
    (hnodup : (records.map CropRecord.id).Nodup)
    (hr : records[i]? = some r)
    (hcap : MAX_SYNC_ATTEMPTS ≤ r.syncAttempts.getD 0) :
    (syncOfflineRecords env isSyncActive records settings).1[i]? = some r ∧
      r.id ∉ (syncOfflineRecords env isSyncActive records settings).2.2 := by
  apply syncOfflineRecords_frame env isSyncActive records settings i r hr
  intro q hq hlt he
  have hqmem : q ∈ records := List.mem_of_mem_filter hq
  have hrmem : r ∈ records := List.getElem?_mem hr
  have : q = r := List.inj_on_of_nodup_map hnodup hqmem hrmem he
  rw [this] at hlt
  exact absurd hcap (not_le.2 hlt)

/-- Witness for C8: a capped pending record alongside a fresh one, remote
failing; the capped record survives byte-for-byte and is never called. -/
theorem c8_capped_record_untouched_witness :
    ((([recCapped, recPending0] : List CropRecord).map CropRecord.id).Nodup ∧
      ([recCapped, recPending0] : List CropRecord)[0]? = some recCapped ∧
      MAX_SYNC_ATTEMPTS ≤ recCapped.syncAttempts.getD 0) ∧
      ((syncOfflineRecords envAllFail false [recCapped, recPending0] DEFAULT_SETTINGS).1[0]?
          = some recCapped ∧
        recCapped.id ∉ (syncOfflineRecords envAllFail false [recCapped, recPending0] DEFAULT_SETTINGS).2.2) :=
  ⟨⟨by decide, by decide, by decide⟩,
    c8_capped_record_untouched envAllFail false [recCapped, recPending0] DEFAULT_SETTINGS 0
      recCapped (by decide) (by decide) (by decide)⟩

/-- C10: a sync pass never modifies a record whose pending flag is false or
absent — such a record reappears unchanged at its position — given the
documented store invariant that record ids are unique. -/
theorem c10_nonpending_record_unchanged (env : SyncEnv) (isSyncActive : Bool)
    (records : List CropRecord) (settings : UserSettings) (i : ℕ) (r : CropRecord)
    (hnodup : (records.map CropRecord.id).Nodup)
    (hr : records[i]? = some r)
    (hnp : r.isPendingSync.getD false = false) :
    (syncOfflineRecords env isSyncActive records settings).1[i]? = some r := by
  refine (syncOfflineRecords_frame env isSyncActive records settings i r hr ?_).1
  intro q hq hlt he
  have hqmem : q ∈ records := List.mem_of_mem_filter hq
  have hqpend : q.isPendingSync.getD false = true := by
    have := List.of_mem_filter hq
    simpa using this
  have hrmem : r ∈ records := List.getElem?_mem hr
  have : q = r := List.inj_on_of_nodup_map hnodup hqmem hrmem he
  rw [this] at hqpend
  rw [hnp] at hqpend
  cases hqpend

/-- A non-pending record used by the C10 witness. -/
def recSynced : CropRecord :=
  { id := "rec-done"
    timestamp := 5
    cropType := "Rice"
    imageFeatures := none
    status := .Healthy
    analysis := emptyParsed
    feedback := some "looks fine"
    isPendingSync := some false
    syncAttempts := some 1
    lastSyncError := none }

/-- Witness for C10: a non-pending record next to a pending one survives a
pass (with a parsing remote) byte-for-byte. -/
theorem c10_nonpending_record_unchanged_witness :
    ((([recSynced, recPending0] : List CropRecord).map CropRecord.id).Nodup ∧
      ([recSynced, recPending0] : List CropRecord)[0]? = some recSynced ∧
      recSynced.isPendingSync.getD false = false) ∧
      (syncOfflineRecords envLoss10 false [recSynced, recPending0] DEFAULT_SETTINGS).1[0]?
        = some recSynced :=
  ⟨⟨by decide, by decide, by decide⟩,
    c10_nonpending_record_unchanged envLoss10 false [recSynced, recPending0] DEFAULT_SETTINGS 0
      recSynced (by decide) (by decide) (by decide)⟩

/-! ## Feature-extractor bounds (C3) -/

/-- A saturated green pixel. -/
def greenPix : Pixel := { r := 0, g := 255, b := 0 }

/-- A black pixel. -/
def blackPix : Pixel := { r := 0, g := 0, b := 0 }

/-- Counterexample image: green at the two center positions (x, y) =
(50, 50) and (51, 50) — indices 6450 and 6451 — and at the periphery
corner index 0; black everywhere else. -/
def cImg : ℕ → Pixel := fun i => if i = 6450 ∨ i = 6451 ∨ i = 0 then greenPix else blackPix

unseal Rat.mul Rat.add Rat.inv Rat.sub Rat.ofScientific in
lemma cImg_green_iff (i : ℕ) : isGreenPixel (cImg i) ↔ (i = 6450 ∨ i = 6451 ∨ i = 0) := by
  unfold cImg
  by_cases h : i = 6450 ∨ i = 6451 ∨ i = 0
  · rw [if_pos h]
    exact iff_of_true (by decide) h
  · rw [if_neg h]
    exact iff_of_false (by decide) h

unseal Rat.mul Rat.add Rat.inv Rat.sub Rat.ofScientific in
lemma centerGreen_cImg : centerGreenCount cImg = 2 := by
  unfold centerGreenCount
  have hset : (Finset.range pixelCount).filter (fun i => isGreenPixel (cImg i) ∧ isCenterIdx i)
      = {6450, 6451} := by
    ext i
    simp only [Finset.mem_filter, Finset.mem_range, Finset.mem_insert, Finset.mem_singleton]
    constructor
    · rintro ⟨hi, hg, hc⟩
      rcases (cImg_green_iff i).1 hg with h | h | h
      · exact Or.inl h
      · exact Or.inr h
      · rw [h] at hc
        exact absurd hc (by decide)
    · rintro (h | h) <;> subst h
      · exact ⟨by decide, ⟨(cImg_green_iff _).2 (Or.inl rfl), by decide⟩⟩
      · exact ⟨by decide, ⟨(cImg_green_iff _).2 (Or.inr (Or.inl rfl)), by decide⟩⟩
  rw [hset]
  decide

unseal Rat.mul Rat.add Rat.inv Rat.sub Rat.ofScientific in
lemma peripheryGreen_cImg : peripheryGreenCount cImg = 1 := by
  unfold peripheryGreenCount
  have hset : (Finset.range pixelCount).filter
        (fun i => isGreenPixel (cImg i) ∧ ¬ isCenterIdx i)
      = {0} := by
    ext i
    simp only [Finset.mem_filter, Finset.mem_range, Finset.mem_singleton]
    constructor
    · rintro ⟨hi, hg, hc⟩
      rcases (cImg_green_iff i).1 hg with h | h | h
      · rw [h] at hc
        exact absurd (by decide) hc
      · rw [h] at hc
        exact absurd (by decide) hc
      · exact h
    · rintro h
      subst h
      exact ⟨by decide, ⟨(cImg_green_iff _).2 (Or.inr (Or.inr rfl)), by decide⟩⟩
  rw [hset]
  decide

set_option maxRecDepth 4000 in
/-- C3 counterexample: on the concrete image with two green center pixels
and one green periphery pixel, zonalIntegrity is 2, which does not lie in
the interval [0, 1]: the ratio is not clamped at 1. -/
theorem c3_zonal_counterexample :
    (extractVisualFeatures cImg).zonalIntegrity = 2 ∧
      ¬ (extractVisualFeatures cImg).zonalIntegrity ≤ 1 := by
  have hz : (extractVisualFeatures cImg).zonalIntegrity
      = (if 0 < peripheryGreenCount cImg then
          (centerGreenCount cImg : ℚ) / (peripheryGreenCount cImg : ℚ)
        else 1) := by
    simp only [extractVisualFeatures]
  rw [hz, centerGreen_cImg, peripheryGreen_cImg]
  norm_num

lemma pixelCount_cast_pos : (0 : ℚ) < (pixelCount : ℚ) := by
  norm_num [pixelCount, size]

lemma filterCard_cast_le (p : ℕ → Prop) [inst : DecidablePred p] :
    (((Finset.range pixelCount).filter p).card : ℚ) ≤ (pixelCount : ℚ) := by
  exact_mod_cast le_trans (Finset.card_filter_le _ _) (le_of_eq (Finset.card_range _))

set_option maxRecDepth 4000 in
/-- C3 amended: for every input image, greenness, variance,
necroticDensity, redness, and edgeDensity each lie in [0, 1]; zonalIntegrity
is nonnegative and equals centerGreenCount / peripheryGreenCount when the
periphery has a green pixel (a ratio that may exceed 1) and exactly 1 when
the periphery has none — it is not clamped to 1. -/
theorem c3_feature_bounds (img : ℕ → Pixel) :
    0 ≤ (extractVisualFeatures img).greenness ∧
      (extractVisualFeatures img).greenness ≤ 1 ∧
      0 ≤ (extractVisualFeatures img).variance ∧
      (extractVisualFeatures img).variance ≤ 1 ∧
      0 ≤ (extractVisualFeatures img).necroticDensity ∧
      (extractVisualFeatures img).necroticDensity ≤ 1 ∧
      0 ≤ (extractVisualFeatures img).redness ∧
      (extractVisualFeatures img).redness ≤ 1 ∧
      0 ≤ (extractVisualFeatures img).edgeDensity ∧
      (extractVisualFeatures img).edgeDensity ≤ 1 ∧
      0 ≤ (extractVisualFeatures img).zonalIntegrity ∧
      (extractVisualFeatures img).zonalIntegrity
        = (if 0 < peripheryGreenCount img then
            (centerGreenCount img : ℚ) / (peripheryGreenCount img : ℚ)
          else 1) := by
  refine ⟨?_, ?_, ?_, ?_, ?_, ?_, ?_, ?_, ?_, ?_, ?_, ?_⟩
  · simp only [extractVisualFeatures]
    positivity
  · simp only [extractVisualFeatures]
    exact (div_le_one pixelCount_cast_pos).2 (filterCard_cast_le _)
  · simp only [extractVisualFeatures]
    exact le_min zero_le_one (by positivity)
  · simp only [extractVisualFeatures]
    exact min_le_left _ _
  · simp only [extractVisualFeatures]
    positivity
  · simp only [extractVisualFeatures]
    exact (div_le_one pixelCount_cast_pos).2 (filterCard_cast_le _)
  · simp only [extractVisualFeatures]
    positivity
  · simp only [extractVisualFeatures]
    exact (div_le_one pixelCount_cast_pos).2 (filterCard_cast_le _)
  · simp only [extractVisualFeatures]
    exact le_min zero_le_one (by positivity)
  · simp only [extractVisualFeatures]
    exact min_le_left _ _
  · simp only [extractVisualFeatures]
    split
    · exact div_nonneg (Nat.cast_nonneg _) (Nat.cast_nonneg _)
    · norm_num
  · simp only [extractVisualFeatures]

end AgroGuard
